import Mathlib

/-!
Shallow embedding of `src/Home.py`, a single-page Streamlit dashboard for a
SAR-image colorization model.  The script is pure UI orchestration: it wires
two file-upload widgets, keeps four session-state keys, calls the external
`image_colorization` module and renders the results.

Modelling choices:
* image arrays (numpy `ndarray` of floats in `[-1, 1]`) are flattened lists
  of rationals (`Image`);
* an uploaded file object is its byte stream (`FileBytes`);
* `st.session_state` is an association list `String → SVal` with Python
  `None` as an explicit value (`SVal.pynone`);
* the external module (`process_images` and the four plotting helpers) is an
  opaque collaborator: a record of function parameters, with `process_images`
  fallible (`Except` models a raised Python exception);
* matplotlib figures produced by the external module are opaque `Nat` ids;
  figures assembled by the script itself carry the data the script put there;
* one script run is the pure function `renderApp`: it takes the widget values
  of that run (uploads, button click, slider position) and the prior session
  store, and returns the new store, the list of rendered elements in emission
  order, and `some e` when an uncaught exception aborted the run.
-/

set_option autoImplicit false

namespace SARApp

/-- A flattened numpy image array: the model works with float arrays scaled
to `[-1, 1]`; we embed the floats as rationals. -/
abbrev Image := List ℚ

/-- The byte stream of an uploaded file object. -/
abbrev FileBytes := List Nat

/-- A value stored in `st.session_state`: the script stores Python `None`,
booleans and image arrays. -/
inductive SVal where
  | bool (b : Bool)
  | pynone
  | img (i : Image)
  deriving DecidableEq

/-- `st.session_state`: an insertion-ordered key/value store. -/
abbrev SessionStore := List (String × SVal)

/-- First-match lookup of a session-state key (`st.session_state.k`). -/
def lookupKey : SessionStore → String → Option SVal
  | [], _ => Option.none
  | (k0, v0) :: rest, k => if k0 = k then some v0 else lookupKey rest k

/-- `st.session_state.k = v`: overwrite the existing entry or append. -/
def setKey : SessionStore → String → SVal → SessionStore
  | [], k, v => [(k, v)]
  | (k0, v0) :: rest, k, v =>
      if k0 = k then (k, v) :: rest else (k0, v0) :: setKey rest k v

/-- `if k not in st.session_state: st.session_state.k = v`. -/
def initKey (s : SessionStore) (k : String) (v : SVal) : SessionStore :=
  if (lookupKey s k).isSome then s else setKey s k v

/-- Lines 12-19 of `Home.py`: initialise `processed`, `src`, `gen`, `tar`
when absent, in that order. -/
def initStore (s : SessionStore) : SessionStore :=
  initKey (initKey (initKey (initKey s "processed" (SVal.bool false))
    "src" SVal.pynone) "gen" SVal.pynone) "tar" SVal.pynone

/-- Python truthiness of a stored value (only `bool` values are reachable
for the `processed` key in script-written stores). -/
def svalTruthy : SVal → Bool
  | SVal.bool b => b
  | SVal.pynone => false
  | SVal.img _ => true

/-- The read `st.session_state.processed` used in the trigger condition;
after `initStore` the key is always present. -/
def getProcessed (s : SessionStore) : Bool :=
  match lookupKey s "processed" with
  | some v => svalTruthy v
  | _ => false

/-- The result of `process_images(src, tar)`: the 6-tuple
`(figure, ssim, psnr, src_array, gen_array, tar_array)`. -/
structure ProcOut where
  fig : Nat
  ssim : ℚ
  psnr : ℚ
  srcArr : Image
  genArr : Image
  tarArr : Image
  deriving DecidableEq

/-- The external `image_colorization` module, treated as an opaque
collaborator.  `process_images` may raise (error code as `Nat`); the
plotting helpers return opaque figure / drawn-axis ids. -/
structure ExternalModule where
  process_images : FileBytes → FileBytes → Except Nat ProcOut
  plot_histogram : Image → String → Nat
  plot_difference_map : Image → Image → Nat × ℚ
  plot_color_channels : Image → String → Nat
  plot_lab_channels : Image → String → Nat

/-- A figure handed to `st.pyplot`. -/
inductive RFig where
  | extFig (id : Nat)
  | axes3 (a1 a2 a3 : Nat)
  | sliderFig (img : Image)
  deriving DecidableEq

/-- The `data=` argument of a download button: either the uploaded file
object passed through unchanged, or a raw byte string. -/
inductive DLData where
  | file (f : FileBytes)
  | bytes (b : List Nat)
  deriving DecidableEq

/-- A rendered UI element, in script emission order. -/
inductive Element where
  | setPageConfig (pageTitle : String) (layout : String)
  | title (text : String)
  | sidebarHeader (text : String)
  | sidebarInfo (text : String)
  | sidebarMarkdown (text : String)
  | fileUploader (label : String) (types : List String)
  | button (label : String)
  | spinner (text : String)
  | pyplot (fig : RFig)
  | subheader (text : String)
  | write (text : String)
  | metric (label : String) (value : ℚ)
  | info (text : String)
  | downloadButton (label : String) (data : DLData) (fileName : String) (mime : String)
  | slider (label : String) (lo hi defv : ℚ)
  | showingPct (v : ℚ)
  | markdown (text : String)
  deriving DecidableEq

/-- An uncaught Python exception: one raised inside `process_images`, or the
`TypeError` of `None + 1` in the slider branch. -/
inductive PyError where
  | extError (code : Nat)
  | typeError
  deriving DecidableEq

/-- Outcome of one script run: session store after the run, elements emitted
before the run ended, and the uncaught exception when one was raised. -/
structure RenderResult where
  store : SessionStore
  elems : List Element
  err : Option PyError
  deriving DecidableEq

/-- The widget values of one run: the two uploads (`None` when absent),
whether "Process Images" was clicked this run, and the slider position. -/
structure RenderInput where
  src_image : Option FileBytes
  tar_image : Option FileBytes
  buttonClicked : Bool
  sliderValue : ℚ
  deriving DecidableEq

/-- `(x + 1) / 2`, the rescaling from `[-1, 1]` to `[0, 1]` applied all over
the script. -/
def rescale01 (img : Image) : Image := img.map (fun x => (x + 1) / 2)

/-- Line 143: `((src + 1) / 2) * (1 - v) + ((gen + 1) / 2) * v`, elementwise
over the two stored arrays. -/
def blend (a b : Image) (v : ℚ) : Image :=
  List.zipWith (fun x y => x * (1 - v) + y * v) (rescale01 a) (rescale01 b)

/-- numpy `.astype(np.uint8)` on one float: truncation toward zero reduced
mod 2^8 (the script only feeds it values in `[0, 255]`, where this is exact;
negative inputs are platform-defined in numpy and modelled as 0 here). -/
def toUint8 (x : ℚ) : Nat := Int.toNat x.floor % 256

/-- Lines 122-123: `((gen + 1) / 2 * 255).astype(np.uint8).tobytes()` — one
raw byte per array element, no image encoding. -/
def genDownloadBytes (g : Image) : List Nat :=
  g.map (fun x => toUint8 ((x + 1) / 2 * 255))

/-- Lines 52-55: the four session-state assignments after `process_images`
returns. -/
def writeResults (s : SessionStore) (out : ProcOut) : SessionStore :=
  setKey (setKey (setKey (setKey s "processed" (SVal.bool true))
    "src" (SVal.img out.srcArr)) "gen" (SVal.img out.genArr)) "tar" (SVal.img out.tarArr)

/-- Line 48 condition: `st.button("Process Images") or not st.session_state.processed`. -/
def procTrigger (clicked : Bool) (s : SessionStore) : Bool :=
  clicked || !(getProcessed s)

def aboutText : String :=
  "This application demonstrates the capabilities of our SAR image colorization model. Upload a source (grayscale) image and a target (color) image to see the results and analysis."

def howToUseText : String :=
  "1. Upload a source (grayscale) image 2. Upload a target (color) image 3. Click \x27Process Images\x27 4. Explore the results and analysis"

def ssimInfoText : String :=
  "SSIM (Structural Similarity Index) measures the perceived similarity between two images. Values range from -1 to 1, where 1 indicates perfect similarity."

def psnrInfoText : String :=
  "PSNR (Peak Signal-to-Noise Ratio) measures the quality of the reconstructed image compared to the original. Higher values indicate better quality."

def histIntroText : String :=
  "Color histograms show the distribution of pixel intensities for each color channel (Red, Green, Blue)."

def diffMapText : String :=
  "The Difference Map shows areas where the generated image differs from the target image. - Brighter areas indicate larger differences. - Darker areas indicate smaller differences. - The color scale is square-root scaled to enhance visibility of small differences."

def meanDiffInfoText : String :=
  "The Mean Difference provides an overall measure of how much the generated image differs from the target. Lower values indicate better performance."

def channelsIntroText : String :=
  "These visualizations show the intensity of each color channel (Red, Green, Blue) separately."

def labIntroText : String :=
  "The LAB color space represents colors in a way that approximates human vision: - L: Lightness (0 = black, 100 = white) - a: Green-Red axis (negative = green, positive = red) - b: Blue-Yellow axis (negative = blue, positive = yellow)"

def promptText : String :=
  "Please upload both source and target images to begin the analysis."

/-- Lines 7-45: elements every run emits before the upload check — page
config, page title, sidebar, and the two upload widgets. -/
def headerElems : List Element :=
  [Element.setPageConfig "SAR Image Colorization - Comparison" "wide",
   Element.title "Image Colorization of SAR Greyscale images",
   Element.sidebarHeader "About",
   Element.sidebarInfo aboutText,
   Element.sidebarHeader "How to Use",
   Element.sidebarMarkdown howToUseText,
   Element.fileUploader "Upload Source (Grayscale) Image" ["png", "jpg", "jpeg"],
   Element.fileUploader "Upload Target (Color) Image" ["png", "jpg", "jpeg"]]

/-- Lines 152-153: the footer markdown (emitted only when the run did not
raise). -/
def footerElems : List Element :=
  [Element.markdown "---", Element.markdown "Developed by Team Horizon | Â© 2024"]

/-- Lines 57-136: everything the processing block renders after
`process_images` returned `out`, in emission order. -/
def processElems (ext : ExternalModule) (srcF tarF : FileBytes) (out : ProcOut) : List Element :=
  let dm := ext.plot_difference_map (rescale01 out.tarArr) (rescale01 out.genArr)
  [Element.pyplot (RFig.extFig out.fig),
   Element.subheader "Accuracy Metrics",
   Element.metric "SSIM" out.ssim,
   Element.info ssimInfoText,
   Element.metric "PSNR" out.psnr,
   Element.info psnrInfoText,
   Element.subheader "Color Histograms",
   Element.write histIntroText,
   Element.pyplot (RFig.axes3 (ext.plot_histogram (rescale01 out.srcArr) "Source")
     (ext.plot_histogram (rescale01 out.genArr) "Generated")
     (ext.plot_histogram (rescale01 out.tarArr) "Target")),
   Element.subheader "Difference Map",
   Element.pyplot (RFig.extFig dm.1),
   Element.write diffMapText,
   Element.metric "Mean Difference" dm.2,
   Element.info meanDiffInfoText,
   Element.subheader "Color Channels",
   Element.write channelsIntroText,
   Element.pyplot (RFig.extFig (ext.plot_color_channels (rescale01 out.genArr) "Generated Image Color Channels")),
   Element.pyplot (RFig.extFig (ext.plot_color_channels (rescale01 out.tarArr) "Target Image Color Channels")),
   Element.subheader "LAB Color Space",
   Element.write labIntroText,
   Element.pyplot (RFig.extFig (ext.plot_lab_channels (rescale01 out.genArr) "Generated Image in LAB Color Space")),
   Element.pyplot (RFig.extFig (ext.plot_lab_channels (rescale01 out.tarArr) "Target Image in LAB Color Space")),
   Element.subheader "Download Images",
   Element.downloadButton "Download Source Image" (DLData.file srcF) "source_image.png" "image/png",
   Element.downloadButton "Download Generated Image" (DLData.bytes (genDownloadBytes out.genArr)) "generated_image.png" "image/png",
   Element.downloadButton "Download Target Image" (DLData.file tarF) "target_image.png" "image/png"]

/-- Lines 139-146: the comparison-slider section.  Reads `src` and `gen`
from the store; when one of them is still `None` the `imshow` arithmetic
raises a `TypeError` after the subheader and slider widget were emitted. -/
def sliderPart (s : SessionStore) (v : ℚ) : List Element × Option PyError :=
  if getProcessed s then
    let widgets : List Element :=
      [Element.subheader "Image Comparison Slider",
       Element.slider "Slide to compare original and generated images" 0 1 (1 / 2)]
    match lookupKey s "src", lookupKey s "gen" with
    | some (SVal.img a), some (SVal.img b) =>
        (widgets ++ [Element.pyplot (RFig.sliderFig (blend a b v)), Element.showingPct v],
         Option.none)
    | _, _ => (widgets, some PyError.typeError)
  else ([], Option.none)

/-- One full script run (`Home.py` top to bottom): session-state init, the
upload check, the processing block when triggered, the slider section, and
the footer.  A raised exception ends the run with the elements emitted so
far and the session store as mutated up to that point. -/
def renderApp (ext : ExternalModule) (inp : RenderInput) (st0 : SessionStore) : RenderResult :=
  let s1 := initStore st0
  match inp.src_image, inp.tar_image with
  | some srcF, some tarF =>
      if procTrigger inp.buttonClicked s1 then
        match ext.process_images srcF tarF with
        | Except.error e =>
            ⟨s1,
             headerElems ++ [Element.button "Process Images", Element.spinner "Processing images..."],
             some (PyError.extError e)⟩
        | Except.ok out =>
            let s2 := writeResults s1 out
            let sl := sliderPart s2 inp.sliderValue
            ⟨s2,
             headerElems ++ [Element.button "Process Images", Element.spinner "Processing images..."]
               ++ processElems ext srcF tarF out ++ sl.1
               ++ (if sl.2.isSome then [] else footerElems),
             sl.2⟩
      else
        let sl := sliderPart s1 inp.sliderValue
        ⟨s1,
         headerElems ++ [Element.button "Process Images"] ++ sl.1
           ++ (if sl.2.isSome then [] else footerElems),
         sl.2⟩
  | _, _ =>
      ⟨s1, headerElems ++ [Element.info promptText] ++ footerElems, Option.none⟩

/-- Is this stored value an image array (i.e. not Python `None`)? -/
def isImgVal : Option SVal → Bool
  | some (SVal.img _) => true
  | _ => false

/-- Recognises download-button elements. -/
def isDownload : Element → Bool
  | Element.downloadButton _ _ _ _ => true
  | _ => false

/-- Recognises file-upload widgets. -/
def isUploaderElem : Element → Bool
  | Element.fileUploader _ _ => true
  | _ => false

/-- A concrete `process_images` result used to instantiate theorems. -/
def outEx : ProcOut := ⟨7, 9 / 10, 30, [0, 1 / 2], [1, -1], [-(1 / 2), 1 / 2]⟩

/-- A concrete external module whose `process_images` succeeds. -/
def extEx : ExternalModule :=
  ⟨fun _ _ => Except.ok outEx, fun _ _ => 1, fun _ _ => (2, 1 / 10), fun _ _ => 3, fun _ _ => 4⟩

/-- A concrete external module whose `process_images` raises (code 5). -/
def extErrEx : ExternalModule :=
  ⟨fun _ _ => Except.error 5, fun _ _ => 1, fun _ _ => (2, 1 / 10), fun _ _ => 3, fun _ _ => 4⟩

/-- Concrete uploaded byte streams. -/
def f1Ex : FileBytes := [10, 20]

def f2Ex : FileBytes := [30]

/-- A concrete prior session store of an already-processed session. -/
def stEx : SessionStore :=
  [("processed", SVal.bool true), ("src", SVal.img [0]),
   ("gen", SVal.img [1]), ("tar", SVal.img [0])]

/-! ## Store lemmas -/

theorem lookup_setKey_self (s : SessionStore) (k : String) (v : SVal) :
    lookupKey (setKey s k v) k = some v := by
  induction s with
  | nil => simp [setKey, lookupKey]
  | cons p rest ih =>
      obtain ⟨k0, v0⟩ := p
      by_cases h : k0 = k
      · simp [setKey, h, lookupKey]
      · simp [setKey, h, lookupKey, ih]

theorem lookup_setKey_other (s : SessionStore) (k k2 : String) (v : SVal) (h : k ≠ k2) :
    lookupKey (setKey s k v) k2 = lookupKey s k2 := by
  induction s with
  | nil => simp [setKey, lookupKey, h]
  | cons p rest ih =>
      obtain ⟨k0, v0⟩ := p
      by_cases h0 : k0 = k
      · simp [setKey, h0, lookupKey, h]
      · simp [setKey, h0, lookupKey, ih]

theorem lookup_initKey_self (s : SessionStore) (k : String) (v : SVal) :
    lookupKey (initKey s k v) k = some ((lookupKey s k).getD v) := by
  unfold initKey
  cases h : lookupKey s k with
  | none => simp [h, lookup_setKey_self]
  | some w => simp [h]

theorem lookup_initKey_other (s : SessionStore) (k k2 : String) (v : SVal) (h : k ≠ k2) :
    lookupKey (initKey s k v) k2 = lookupKey s k2 := by
  unfold initKey
  cases h0 : lookupKey s k with
  | none => simp [lookup_setKey_other s k k2 v h]
  | some w => simp

theorem lookup_initStore_processed (s : SessionStore) :
    lookupKey (initStore s) "processed" = some ((lookupKey s "processed").getD (SVal.bool false)) := by
  unfold initStore
  rw [lookup_initKey_other _ _ _ _ (by decide), lookup_initKey_other _ _ _ _ (by decide),
    lookup_initKey_other _ _ _ _ (by decide), lookup_initKey_self]

theorem lookup_initStore_src (s : SessionStore) :
    lookupKey (initStore s) "src" = some ((lookupKey s "src").getD SVal.pynone) := by
  unfold initStore
  rw [lookup_initKey_other _ _ _ _ (by decide), lookup_initKey_other _ _ _ _ (by decide),
    lookup_initKey_self, lookup_initKey_other _ _ _ _ (by decide)]

theorem lookup_initStore_gen (s : SessionStore) :
    lookupKey (initStore s) "gen" = some ((lookupKey s "gen").getD SVal.pynone) := by
  unfold initStore
  rw [lookup_initKey_other _ _ _ _ (by decide), lookup_initKey_self,
    lookup_initKey_other _ _ _ _ (by decide), lookup_initKey_other _ _ _ _ (by decide)]

theorem lookup_initStore_tar (s : SessionStore) :
    lookupKey (initStore s) "tar" = some ((lookupKey s "tar").getD SVal.pynone) := by
  unfold initStore
  rw [lookup_initKey_self, lookup_initKey_other _ _ _ _ (by decide),
    lookup_initKey_other _ _ _ _ (by decide), lookup_initKey_other _ _ _ _ (by decide)]

theorem lookup_initStore_other (s : SessionStore) (k : String)
    (h1 : k ≠ "processed") (h2 : k ≠ "src") (h3 : k ≠ "gen") (h4 : k ≠ "tar") :
    lookupKey (initStore s) k = lookupKey s k := by
  unfold initStore
  rw [lookup_initKey_other _ _ _ _ (Ne.symm h4), lookup_initKey_other _ _ _ _ (Ne.symm h3),
    lookup_initKey_other _ _ _ _ (Ne.symm h2), lookup_initKey_other _ _ _ _ (Ne.symm h1)]

theorem lookup_initStore_present (s : SessionStore) (k : String) (h : (lookupKey s k).isSome) :
    lookupKey (initStore s) k = lookupKey s k := by
  obtain ⟨w, hw⟩ := Option.isSome_iff_exists.mp h
  by_cases h1 : k = "processed"
  · subst h1; rw [lookup_initStore_processed, hw]; rfl
  by_cases h2 : k = "src"
  · subst h2; rw [lookup_initStore_src, hw]; rfl
  by_cases h3 : k = "gen"
  · subst h3; rw [lookup_initStore_gen, hw]; rfl
  by_cases h4 : k = "tar"
  · subst h4; rw [lookup_initStore_tar, hw]; rfl
  exact lookup_initStore_other s k h1 h2 h3 h4

theorem lookup_writeResults_processed (s : SessionStore) (out : ProcOut) :
    lookupKey (writeResults s out) "processed" = some (SVal.bool true) := by
  unfold writeResults
  rw [lookup_setKey_other _ _ _ _ (by decide), lookup_setKey_other _ _ _ _ (by decide),
    lookup_setKey_other _ _ _ _ (by decide), lookup_setKey_self]

theorem lookup_writeResults_src (s : SessionStore) (out : ProcOut) :
    lookupKey (writeResults s out) "src" = some (SVal.img out.srcArr) := by
  unfold writeResults
  rw [lookup_setKey_other _ _ _ _ (by decide), lookup_setKey_other _ _ _ _ (by decide),
    lookup_setKey_self]

theorem lookup_writeResults_gen (s : SessionStore) (out : ProcOut) :
    lookupKey (writeResults s out) "gen" = some (SVal.img out.genArr) := by
  unfold writeResults
  rw [lookup_setKey_other _ _ _ _ (by decide), lookup_setKey_self]

theorem lookup_writeResults_tar (s : SessionStore) (out : ProcOut) :
    lookupKey (writeResults s out) "tar" = some (SVal.img out.tarArr) := by
  unfold writeResults
  rw [lookup_setKey_self]

theorem lookup_writeResults_other (s : SessionStore) (out : ProcOut) (k : String)
    (h1 : k ≠ "processed") (h2 : k ≠ "src") (h3 : k ≠ "gen") (h4 : k ≠ "tar") :
    lookupKey (writeResults s out) k = lookupKey s k := by
  unfold writeResults
  rw [lookup_setKey_other _ _ _ _ (Ne.symm h4), lookup_setKey_other _ _ _ _ (Ne.symm h3),
    lookup_setKey_other _ _ _ _ (Ne.symm h2), lookup_setKey_other _ _ _ _ (Ne.symm h1)]

theorem getProcessed_writeResults (s : SessionStore) (out : ProcOut) :
    getProcessed (writeResults s out) = true := by
  unfold getProcessed
  rw [lookup_writeResults_processed]
  rfl

/-! ## Shape lemmas: the four possible outcomes of one run -/

/-- Both uploads present, trigger fires, `process_images` returns: the run
succeeds, stores the three arrays, and emits the whole page. -/
theorem renderApp_ok_eq (ext : ExternalModule) (f1 f2 : FileBytes) (clicked : Bool) (v : ℚ)
    (st0 : SessionStore) (out : ProcOut)
    (htrig : procTrigger clicked (initStore st0) = true)
    (hok : ext.process_images f1 f2 = Except.ok out) :
    renderApp ext ⟨some f1, some f2, clicked, v⟩ st0 =
      ⟨writeResults (initStore st0) out,
       headerElems ++ [Element.button "Process Images", Element.spinner "Processing images..."]
         ++ processElems ext f1 f2 out
         ++ [Element.subheader "Image Comparison Slider",
             Element.slider "Slide to compare original and generated images" 0 1 (1 / 2),
             Element.pyplot (RFig.sliderFig (blend out.srcArr out.genArr v)),
             Element.showingPct v]
         ++ footerElems,
       Option.none⟩ := by
  unfold renderApp
  simp only [htrig, hok, if_true]
  simp [sliderPart, getProcessed_writeResults, lookup_writeResults_src, lookup_writeResults_gen]

/-- Both uploads present, trigger fires, `process_images` raises: the run
aborts inside the spinner and the session store is the post-init store. -/
theorem renderApp_err_eq (ext : ExternalModule) (f1 f2 : FileBytes) (clicked : Bool) (v : ℚ)
    (st0 : SessionStore) (e : Nat)
    (htrig : procTrigger clicked (initStore st0) = true)
    (herr : ext.process_images f1 f2 = Except.error e) :
    renderApp ext ⟨some f1, some f2, clicked, v⟩ st0 =
      ⟨initStore st0,
       headerElems ++ [Element.button "Process Images", Element.spinner "Processing images..."],
       some (PyError.extError e)⟩ := by
  unfold renderApp
  simp only [htrig, herr, if_true]

/-- Both uploads present but the trigger does not fire (already processed,
button not clicked): no processing, only the slider section re-renders. -/
theorem renderApp_notrig_eq (ext : ExternalModule) (f1 f2 : FileBytes) (clicked : Bool) (v : ℚ)
    (st0 : SessionStore)
    (htrig : procTrigger clicked (initStore st0) = false) :
    renderApp ext ⟨some f1, some f2, clicked, v⟩ st0 =
      ⟨initStore st0,
       headerElems ++ [Element.button "Process Images"] ++ (sliderPart (initStore st0) v).1
         ++ (if (sliderPart (initStore st0) v).2.isSome then [] else footerElems),
       (sliderPart (initStore st0) v).2⟩ := by
  unfold renderApp
  simp only [htrig, if_false]
  simp

/-- One upload (or both) absent: only the informational prompt is rendered
and the store is just the post-init store. -/
theorem renderApp_noupload_eq (ext : ExternalModule) (inp : RenderInput) (st0 : SessionStore)
    (h : inp.src_image = Option.none ∨ inp.tar_image = Option.none) :
    renderApp ext inp st0 =
      ⟨initStore st0, headerElems ++ [Element.info promptText] ++ footerElems, Option.none⟩ := by
  unfold renderApp
  obtain ⟨s, t, c, v⟩ := inp
  rcases h with h | h <;> simp only at h <;> subst h
  · rfl
  · cases s <;> rfl

/-! ## Auxiliary lemmas -/

theorem getProcessed_initStore (s : SessionStore) :
    getProcessed (initStore s) = getProcessed s := by
  unfold getProcessed
  rw [lookup_initStore_processed]
  cases h : lookupKey s "processed" <;> simp [Option.getD, svalTruthy]

theorem isImgVal_isSome (o : Option SVal) (h : isImgVal o = true) : o.isSome := by
  cases o with
  | none => simp [isImgVal] at h
  | some w => rfl

/-- The session store after a run is either the post-init store or the
post-init store overwritten with some `process_images` result. -/
theorem renderApp_store_cases (ext : ExternalModule) (inp : RenderInput) (st0 : SessionStore) :
    (renderApp ext inp st0).store = initStore st0 ∨
    ∃ out : ProcOut, (renderApp ext inp st0).store = writeResults (initStore st0) out := by
  obtain ⟨s, t, c, v⟩ := inp
  cases s with
  | none => left; rfl
  | some f1 =>
    cases t with
    | none => left; rfl
    | some f2 =>
      cases h : procTrigger c (initStore st0) with
      | false => left; unfold renderApp; simp [h]
      | true =>
        cases hp : ext.process_images f1 f2 with
        | error e => left; unfold renderApp; simp [h, hp]
        | ok out => right; exact ⟨out, by unfold renderApp; simp [h, hp]⟩

theorem zipWith_blend_left (l1 l2 : List ℚ) (h : l1.length = l2.length) :
    List.zipWith (fun x y => x * (1 - 0) + y * 0) l1 l2 = l1 := by
  induction l1 generalizing l2 with
  | nil => rfl
  | cons x xs ih =>
    cases l2 with
    | nil => simp at h
    | cons y ys =>
      simp only [List.zipWith_cons_cons, List.cons.injEq]
      refine ⟨by ring, ih ys (by simpa using h)⟩

theorem zipWith_blend_right (l1 l2 : List ℚ) (h : l1.length = l2.length) :
    List.zipWith (fun x y => x * (1 - 1) + y * 1) l1 l2 = l2 := by
  induction l1 generalizing l2 with
  | nil => cases l2 with
    | nil => rfl
    | cons y ys => simp at h
  | cons x xs ih =>
    cases l2 with
    | nil => simp at h
    | cons y ys =>
      simp only [List.zipWith_cons_cons, List.cons.injEq]
      refine ⟨by ring, ih ys (by simpa using h)⟩

/-- At slider value 0 the blend is exactly the rescaled source. -/
theorem blend_zero (a b : Image) (h : a.length = b.length) :
    blend a b 0 = rescale01 a := by
  unfold blend
  exact zipWith_blend_left (rescale01 a) (rescale01 b) (by simp [rescale01, h])

/-- At slider value 1 the blend is exactly the rescaled generated image. -/
theorem blend_one (a b : Image) (h : a.length = b.length) :
    blend a b 1 = rescale01 b := by
  unfold blend
  exact zipWith_blend_right (rescale01 a) (rescale01 b) (by simp [rescale01, h])

theorem spinner_not_mem_sliderPart (s : SessionStore) (v : ℚ) :
    Element.spinner "Processing images..." ∉ (sliderPart s v).1 := by
  unfold sliderPart
  by_cases h : getProcessed s = true
  · simp only [h, if_true]
    cases hs : lookupKey s "src" with
    | none => simp
    | some w =>
      cases w with
      | bool b => simp
      | pynone => simp
      | img i =>
        cases hg : lookupKey s "gen" with
        | none => simp
        | some w2 => cases w2 <;> simp
  · simp [h]

theorem filter_isUploader_sliderPart (s : SessionStore) (v : ℚ) :
    ((sliderPart s v).1.filter isUploaderElem) = [] := by
  unfold sliderPart
  by_cases h : getProcessed s = true
  · simp only [h, if_true]
    cases hs : lookupKey s "src" with
    | none => simp [isUploaderElem]
    | some w =>
      cases w with
      | bool b => simp [isUploaderElem]
      | pynone => simp [isUploaderElem]
      | img i =>
        cases hg : lookupKey s "gen" with
        | none => simp [isUploaderElem]
        | some w2 => cases w2 <;> simp [isUploaderElem]
  · simp [h]

/-! ## Claims -/

/-- C1: for every run where both uploads are present and processing fires,
the script calls `process_images(src_image, tar_image)` and consumes its
result as the 6-tuple `(figure, ssim, psnr, src_array, gen_array,
tar_array)`: the figure is rendered, the two metrics are rendered from the
second and third components, and the three arrays are bound (src, gen, tar)
into session state in that order. -/
theorem c1_process_call_six_tuple (ext : ExternalModule) (f1 f2 : FileBytes) (clicked : Bool)
    (v : ℚ) (st0 : SessionStore) (out : ProcOut)
    (htrig : procTrigger clicked (initStore st0) = true)
    (hok : ext.process_images f1 f2 = Except.ok out) :
    lookupKey (renderApp ext ⟨some f1, some f2, clicked, v⟩ st0).store "src" = some (SVal.img out.srcArr)
    ∧ lookupKey (renderApp ext ⟨some f1, some f2, clicked, v⟩ st0).store "gen" = some (SVal.img out.genArr)
    ∧ lookupKey (renderApp ext ⟨some f1, some f2, clicked, v⟩ st0).store "tar" = some (SVal.img out.tarArr)
    ∧ Element.pyplot (RFig.extFig out.fig) ∈ (renderApp ext ⟨some f1, some f2, clicked, v⟩ st0).elems
    ∧ Element.metric "SSIM" out.ssim ∈ (renderApp ext ⟨some f1, some f2, clicked, v⟩ st0).elems
    ∧ Element.metric "PSNR" out.psnr ∈ (renderApp ext ⟨some f1, some f2, clicked, v⟩ st0).elems := by
  rw [renderApp_ok_eq ext f1 f2 clicked v st0 out htrig hok]
  refine ⟨lookup_writeResults_src _ _, lookup_writeResults_gen _ _,
    lookup_writeResults_tar _ _, ?_, ?_, ?_⟩ <;> simp [processElems]

/-- C1 witness: a concrete successful run. -/
theorem c1_witness :
    (procTrigger false (initStore []) = true
      ∧ extEx.process_images f1Ex f2Ex = Except.ok outEx)
    ∧ (lookupKey (renderApp extEx ⟨some f1Ex, some f2Ex, false, 1 / 2⟩ []).store "src" = some (SVal.img outEx.srcArr)
       ∧ lookupKey (renderApp extEx ⟨some f1Ex, some f2Ex, false, 1 / 2⟩ []).store "gen" = some (SVal.img outEx.genArr)
       ∧ lookupKey (renderApp extEx ⟨some f1Ex, some f2Ex, false, 1 / 2⟩ []).store "tar" = some (SVal.img outEx.tarArr)
       ∧ Element.pyplot (RFig.extFig outEx.fig) ∈ (renderApp extEx ⟨some f1Ex, some f2Ex, false, 1 / 2⟩ []).elems
       ∧ Element.metric "SSIM" outEx.ssim ∈ (renderApp extEx ⟨some f1Ex, some f2Ex, false, 1 / 2⟩ []).elems
       ∧ Element.metric "PSNR" outEx.psnr ∈ (renderApp extEx ⟨some f1Ex, some f2Ex, false, 1 / 2⟩ []).elems) :=
  ⟨⟨by decide, rfl⟩,
   c1_process_call_six_tuple extEx f1Ex f2Ex false (1 / 2) [] outEx (by decide) rfl⟩

/-- C3: no error handling: when `process_images` raises, nothing is caught —
the run ends with the uncaught exception — and the session keys keep the
values they had going into the call (the assignments happen only after the
call returns). -/
theorem c3_error_propagates (ext : ExternalModule) (f1 f2 : FileBytes) (clicked : Bool)
    (v : ℚ) (st0 : SessionStore) (e : Nat)
    (htrig : procTrigger clicked (initStore st0) = true)
    (herr : ext.process_images f1 f2 = Except.error e) :
    (renderApp ext ⟨some f1, some f2, clicked, v⟩ st0).err = some (PyError.extError e)
    ∧ (renderApp ext ⟨some f1, some f2, clicked, v⟩ st0).store = initStore st0
    ∧ ∀ k : String, (lookupKey st0 k).isSome →
        lookupKey (renderApp ext ⟨some f1, some f2, clicked, v⟩ st0).store k = lookupKey st0 k := by
  rw [renderApp_err_eq ext f1 f2 clicked v st0 e htrig herr]
  exact ⟨rfl, rfl, fun k hk => lookup_initStore_present st0 k hk⟩

/-- C3 witness: a concrete raising run over an already-processed store. -/
theorem c3_witness :
    (procTrigger true (initStore stEx) = true
      ∧ extErrEx.process_images f1Ex f2Ex = Except.error 5)
    ∧ ((renderApp extErrEx ⟨some f1Ex, some f2Ex, true, 1 / 2⟩ stEx).err = some (PyError.extError 5)
       ∧ (renderApp extErrEx ⟨some f1Ex, some f2Ex, true, 1 / 2⟩ stEx).store = initStore stEx
       ∧ ∀ k : String, (lookupKey stEx k).isSome →
           lookupKey (renderApp extErrEx ⟨some f1Ex, some f2Ex, true, 1 / 2⟩ stEx).store k = lookupKey stEx k) :=
  ⟨⟨by decide, rfl⟩,
   c3_error_propagates extErrEx f1Ex f2Ex true (1 / 2) stEx 5 (by decide) rfl⟩

/-- C8: for every render in which the source upload or the target upload is
absent, `process_images` is never called (the run result does not depend on
the external module at all) and only the informational prompt is rendered in
place of the processing UI. -/
theorem c8_requires_both_uploads (ext ext2 : ExternalModule) (inp : RenderInput) (st0 : SessionStore)
    (h : inp.src_image = Option.none ∨ inp.tar_image = Option.none) :
    renderApp ext inp st0 =
      ⟨initStore st0, headerElems ++ [Element.info promptText] ++ footerElems, Option.none⟩
    ∧ renderApp ext inp st0 = renderApp ext2 inp st0 := by
  have h1 := renderApp_noupload_eq ext inp st0 h
  have h2 := renderApp_noupload_eq ext2 inp st0 h
  exact ⟨h1, h1.trans h2.symm⟩

/-- C8 witness: a run with the source upload missing. -/
theorem c8_witness :
    ((⟨Option.none, some f2Ex, true, 1 / 2⟩ : RenderInput).src_image = Option.none
      ∨ (⟨Option.none, some f2Ex, true, 1 / 2⟩ : RenderInput).tar_image = Option.none)
    ∧ (renderApp extEx ⟨Option.none, some f2Ex, true, 1 / 2⟩ [] =
        ⟨initStore [], headerElems ++ [Element.info promptText] ++ footerElems, Option.none⟩
       ∧ renderApp extEx ⟨Option.none, some f2Ex, true, 1 / 2⟩ [] =
          renderApp extErrEx ⟨Option.none, some f2Ex, true, 1 / 2⟩ []) :=
  ⟨Or.inl rfl, c8_requires_both_uploads extEx extErrEx ⟨Option.none, some f2Ex, true, 1 / 2⟩ [] (Or.inl rfl)⟩

/-- C2: session state is exactly the four keys `processed`, `src`, `gen`,
`tar`: on the first render they are created with `processed = False` and the
three buffers `None`; no run ever writes any other key; and every run
preserves the invariant that when `processed` is truthy all three buffers
hold image arrays (non-`None`). -/
theorem c2_session_state_keys (ext : ExternalModule) (inp : RenderInput) (st0 : SessionStore)
    (k : String)
    (hk : k ≠ "processed" ∧ k ≠ "src" ∧ k ≠ "gen" ∧ k ≠ "tar")
    (hinv : getProcessed st0 = true →
      isImgVal (lookupKey st0 "src") = true ∧ isImgVal (lookupKey st0 "gen") = true
        ∧ isImgVal (lookupKey st0 "tar") = true) :
    initStore ([] : SessionStore) =
      [("processed", SVal.bool false), ("src", SVal.pynone), ("gen", SVal.pynone), ("tar", SVal.pynone)]
    ∧ lookupKey (renderApp ext inp st0).store k = lookupKey st0 k
    ∧ (getProcessed (renderApp ext inp st0).store = true →
        isImgVal (lookupKey (renderApp ext inp st0).store "src") = true
        ∧ isImgVal (lookupKey (renderApp ext inp st0).store "gen") = true
        ∧ isImgVal (lookupKey (renderApp ext inp st0).store "tar") = true) := by
  obtain ⟨hk1, hk2, hk3, hk4⟩ := hk
  refine ⟨by decide, ?_, ?_⟩
  · rcases renderApp_store_cases ext inp st0 with hs | ⟨out, hs⟩
    · rw [hs, lookup_initStore_other st0 k hk1 hk2 hk3 hk4]
    · rw [hs, lookup_writeResults_other _ out k hk1 hk2 hk3 hk4,
        lookup_initStore_other st0 k hk1 hk2 hk3 hk4]
  · rcases renderApp_store_cases ext inp st0 with hs | ⟨out, hs⟩
    · rw [hs, getProcessed_initStore]
      intro hp
      obtain ⟨h1, h2, h3⟩ := hinv hp
      rw [lookup_initStore_present st0 "src" (isImgVal_isSome _ h1),
        lookup_initStore_present st0 "gen" (isImgVal_isSome _ h2),
        lookup_initStore_present st0 "tar" (isImgVal_isSome _ h3)]
      exact ⟨h1, h2, h3⟩
    · rw [hs]
      intro _
      rw [lookup_writeResults_src, lookup_writeResults_gen, lookup_writeResults_tar]
      exact ⟨rfl, rfl, rfl⟩

/-- C2 witness: a concrete first render with a fresh store and a non-script key. -/
theorem c2_witness :
    (("other" ≠ "processed" ∧ "other" ≠ "src" ∧ "other" ≠ "gen" ∧ "other" ≠ "tar")
      ∧ (getProcessed ([] : SessionStore) = true →
          isImgVal (lookupKey ([] : SessionStore) "src") = true
          ∧ isImgVal (lookupKey ([] : SessionStore) "gen") = true
          ∧ isImgVal (lookupKey ([] : SessionStore) "tar") = true))
    ∧ (initStore ([] : SessionStore) =
        [("processed", SVal.bool false), ("src", SVal.pynone), ("gen", SVal.pynone), ("tar", SVal.pynone)]
       ∧ lookupKey (renderApp extEx ⟨some f1Ex, some f2Ex, false, 1 / 2⟩ []).store "other" =
          lookupKey ([] : SessionStore) "other"
       ∧ (getProcessed (renderApp extEx ⟨some f1Ex, some f2Ex, false, 1 / 2⟩ []).store = true →
           isImgVal (lookupKey (renderApp extEx ⟨some f1Ex, some f2Ex, false, 1 / 2⟩ []).store "src") = true
           ∧ isImgVal (lookupKey (renderApp extEx ⟨some f1Ex, some f2Ex, false, 1 / 2⟩ []).store "gen") = true
           ∧ isImgVal (lookupKey (renderApp extEx ⟨some f1Ex, some f2Ex, false, 1 / 2⟩ []).store "tar") = true)) :=
  ⟨⟨by decide, by decide⟩,
   c2_session_state_keys extEx ⟨some f1Ex, some f2Ex, false, 1 / 2⟩ [] "other" (by decide) (by decide)⟩

/-- C4: the button is not the only trigger: with both images present and
`processed` false, processing runs even without a click; once `processed` is
true, a rerun re-processes exactly when the button is clicked (and a run that
does not re-process never touches the external module). -/
theorem c4_trigger_condition (ext : ExternalModule) (f1 f2 : FileBytes) (v : ℚ)
    (st0 : SessionStore) (out : ProcOut)
    (hok : ext.process_images f1 f2 = Except.ok out) :
    (getProcessed (initStore st0) = false →
      Element.spinner "Processing images..." ∈ (renderApp ext ⟨some f1, some f2, false, v⟩ st0).elems
      ∧ lookupKey (renderApp ext ⟨some f1, some f2, false, v⟩ st0).store "gen" = some (SVal.img out.genArr))
    ∧ (getProcessed (initStore st0) = true →
        (∀ ext2 : ExternalModule,
          renderApp ext ⟨some f1, some f2, false, v⟩ st0 = renderApp ext2 ⟨some f1, some f2, false, v⟩ st0)
        ∧ Element.spinner "Processing images..." ∉ (renderApp ext ⟨some f1, some f2, false, v⟩ st0).elems)
    ∧ (Element.spinner "Processing images..." ∈ (renderApp ext ⟨some f1, some f2, true, v⟩ st0).elems
       ∧ lookupKey (renderApp ext ⟨some f1, some f2, true, v⟩ st0).store "gen" = some (SVal.img out.genArr)) := by
  refine ⟨?_, ?_, ?_⟩
  · intro hp
    have htrig : procTrigger false (initStore st0) = true := by simp [procTrigger, hp]
    rw [renderApp_ok_eq ext f1 f2 false v st0 out htrig hok]
    exact ⟨by simp, lookup_writeResults_gen _ _⟩
  · intro hp
    have htrig : procTrigger false (initStore st0) = false := by simp [procTrigger, hp]
    constructor
    · intro ext2
      rw [renderApp_notrig_eq ext f1 f2 false v st0 htrig,
        renderApp_notrig_eq ext2 f1 f2 false v st0 htrig]
    · rw [renderApp_notrig_eq ext f1 f2 false v st0 htrig]
      intro hmem
      simp only [List.mem_append] at hmem
      rcases hmem with ((hh | hb) | hsl) | hf
      · simp [headerElems] at hh
      · simp at hb
      · exact spinner_not_mem_sliderPart _ v hsl
      · by_cases hc : (sliderPart (initStore st0) v).2.isSome <;>
          simp [hc, footerElems] at hf
  · have htrig : procTrigger true (initStore st0) = true := by simp [procTrigger]
    rw [renderApp_ok_eq ext f1 f2 true v st0 out htrig hok]
    exact ⟨by simp, lookup_writeResults_gen _ _⟩

/-- C4 witness: a concrete fresh session. -/
theorem c4_witness :
    extEx.process_images f1Ex f2Ex = Except.ok outEx
    ∧ ((getProcessed (initStore []) = false →
        Element.spinner "Processing images..." ∈ (renderApp extEx ⟨some f1Ex, some f2Ex, false, 1 / 2⟩ []).elems
        ∧ lookupKey (renderApp extEx ⟨some f1Ex, some f2Ex, false, 1 / 2⟩ []).store "gen" = some (SVal.img outEx.genArr))
      ∧ (getProcessed (initStore []) = true →
          (∀ ext2 : ExternalModule,
            renderApp extEx ⟨some f1Ex, some f2Ex, false, 1 / 2⟩ [] = renderApp ext2 ⟨some f1Ex, some f2Ex, false, 1 / 2⟩ [])
          ∧ Element.spinner "Processing images..." ∉ (renderApp extEx ⟨some f1Ex, some f2Ex, false, 1 / 2⟩ []).elems)
      ∧ (Element.spinner "Processing images..." ∈ (renderApp extEx ⟨some f1Ex, some f2Ex, true, 1 / 2⟩ []).elems
         ∧ lookupKey (renderApp extEx ⟨some f1Ex, some f2Ex, true, 1 / 2⟩ []).store "gen" = some (SVal.img outEx.genArr))) :=
  ⟨rfl, c4_trigger_condition extEx f1Ex f2Ex (1 / 2) [] outEx rfl⟩

/-- C9: the comparison slider shows the convex blend
`((src+1)/2)*(1-v) + ((gen+1)/2)*v` of the stored source and generated
buffers; the widget ranges over `[0, 1]` with default `0.5`; at `v = 0` the
blend equals exactly the rescaled source and at `v = 1` exactly the rescaled
generated image. -/
theorem c9_slider_blend (ext : ExternalModule) (f1 f2 : FileBytes) (v : ℚ)
    (st0 : SessionStore) (a b : Image)
    (hp : getProcessed (initStore st0) = true)
    (hsrc : lookupKey (initStore st0) "src" = some (SVal.img a))
    (hgen : lookupKey (initStore st0) "gen" = some (SVal.img b)) :
    Element.pyplot (RFig.sliderFig (blend a b v)) ∈ (renderApp ext ⟨some f1, some f2, false, v⟩ st0).elems
    ∧ Element.slider "Slide to compare original and generated images" 0 1 (1 / 2)
        ∈ (renderApp ext ⟨some f1, some f2, false, v⟩ st0).elems
    ∧ blend a b v = List.zipWith (fun x y => x * (1 - v) + y * v) (rescale01 a) (rescale01 b)
    ∧ (a.length = b.length → blend a b 0 = rescale01 a)
    ∧ (a.length = b.length → blend a b 1 = rescale01 b) := by
  have htrig : procTrigger false (initStore st0) = false := by simp [procTrigger, hp]
  rw [renderApp_notrig_eq ext f1 f2 false v st0 htrig]
  have hsl : sliderPart (initStore st0) v =
      ([Element.subheader "Image Comparison Slider",
        Element.slider "Slide to compare original and generated images" 0 1 (1 / 2),
        Element.pyplot (RFig.sliderFig (blend a b v)), Element.showingPct v], Option.none) := by
    unfold sliderPart
    simp [hp, hsrc, hgen]
  refine ⟨?_, ?_, rfl, blend_zero a b, blend_one a b⟩ <;> simp [hsl]

/-- C9 witness: a rerun over an already-processed session store. -/
theorem c9_witness :
    (getProcessed (initStore stEx) = true
      ∧ lookupKey (initStore stEx) "src" = some (SVal.img [0])
      ∧ lookupKey (initStore stEx) "gen" = some (SVal.img [1]))
    ∧ (Element.pyplot (RFig.sliderFig (blend [0] [1] (1 / 2)))
        ∈ (renderApp extEx ⟨some f1Ex, some f2Ex, false, 1 / 2⟩ stEx).elems
       ∧ Element.slider "Slide to compare original and generated images" 0 1 (1 / 2)
          ∈ (renderApp extEx ⟨some f1Ex, some f2Ex, false, 1 / 2⟩ stEx).elems
       ∧ blend [0] [1] (1 / 2) =
          List.zipWith (fun x y => x * (1 - 1 / 2) + y * (1 / 2)) (rescale01 [0]) (rescale01 [1])
       ∧ (([0] : Image).length = ([1] : Image).length → blend [0] [1] 0 = rescale01 [0])
       ∧ (([0] : Image).length = ([1] : Image).length → blend [0] [1] 1 = rescale01 [1])) :=
  ⟨⟨by decide, by decide, by decide⟩,
   c9_slider_blend extEx f1Ex f2Ex (1 / 2) stEx [0] [1] (by decide) (by decide) (by decide)⟩

/-- C5: of the three download buttons, the source and target buttons serve
the uploaded file objects byte-for-byte unchanged, while the generated-image
button serves raw pixel bytes `((gen + 1) / 2 * 255)` cast to uint8 and
flattened — one byte per array element, not a PNG-encoded stream — even
though its file name is `generated_image.png` and its MIME type is
`image/png`. -/
theorem c5_download_buttons (ext : ExternalModule) (f1 f2 : FileBytes) (clicked : Bool)
    (v : ℚ) (st0 : SessionStore) (out : ProcOut)
    (htrig : procTrigger clicked (initStore st0) = true)
    (hok : ext.process_images f1 f2 = Except.ok out) :
    ((renderApp ext ⟨some f1, some f2, clicked, v⟩ st0).elems.filter isDownload) =
      [Element.downloadButton "Download Source Image" (DLData.file f1) "source_image.png" "image/png",
       Element.downloadButton "Download Generated Image" (DLData.bytes (genDownloadBytes out.genArr)) "generated_image.png" "image/png",
       Element.downloadButton "Download Target Image" (DLData.file f2) "target_image.png" "image/png"]
    ∧ genDownloadBytes out.genArr = out.genArr.map (fun x => toUint8 ((x + 1) / 2 * 255))
    ∧ (genDownloadBytes out.genArr).length = out.genArr.length := by
  rw [renderApp_ok_eq ext f1 f2 clicked v st0 out htrig hok]
  refine ⟨?_, rfl, by simp [genDownloadBytes]⟩
  simp [headerElems, processElems, footerElems, isDownload, List.filter_append]

/-- C5 witness: a concrete successful run; the generated bytes of
`genArr = [1, -1]` are `[255, 0]`. -/
theorem c5_witness :
    (procTrigger false (initStore []) = true
      ∧ extEx.process_images f1Ex f2Ex = Except.ok outEx)
    ∧ (((renderApp extEx ⟨some f1Ex, some f2Ex, false, 1 / 2⟩ []).elems.filter isDownload) =
        [Element.downloadButton "Download Source Image" (DLData.file f1Ex) "source_image.png" "image/png",
         Element.downloadButton "Download Generated Image" (DLData.bytes (genDownloadBytes outEx.genArr)) "generated_image.png" "image/png",
         Element.downloadButton "Download Target Image" (DLData.file f2Ex) "target_image.png" "image/png"]
       ∧ genDownloadBytes outEx.genArr = outEx.genArr.map (fun x => toUint8 ((x + 1) / 2 * 255))
       ∧ (genDownloadBytes outEx.genArr).length = outEx.genArr.length) :=
  ⟨⟨by decide, rfl⟩,
   c5_download_buttons extEx f1Ex f2Ex false (1 / 2) [] outEx (by decide) rfl⟩

/-- C6: every render emits exactly two upload widgets, one for the grayscale
source and one for the color target, each restricted to png, jpg and jpeg. -/
theorem c6_two_uploaders (ext : ExternalModule) (inp : RenderInput) (st0 : SessionStore) :
    ((renderApp ext inp st0).elems.filter isUploaderElem) =
      [Element.fileUploader "Upload Source (Grayscale) Image" ["png", "jpg", "jpeg"],
       Element.fileUploader "Upload Target (Color) Image" ["png", "jpg", "jpeg"]] := by
  obtain ⟨s, t, c, v⟩ := inp
  cases s with
  | none =>
    rw [renderApp_noupload_eq ext ⟨Option.none, t, c, v⟩ st0 (Or.inl rfl)]
    simp [headerElems, footerElems, isUploaderElem, List.filter_append]
  | some f1 =>
    cases t with
    | none =>
      rw [renderApp_noupload_eq ext ⟨some f1, Option.none, c, v⟩ st0 (Or.inr rfl)]
      simp [headerElems, footerElems, isUploaderElem, List.filter_append]
    | some f2 =>
      cases h : procTrigger c (initStore st0) with
      | false =>
        rw [renderApp_notrig_eq ext f1 f2 c v st0 h]
        by_cases hc : (sliderPart (initStore st0) v).2.isSome <;>
          simp [hc, headerElems, footerElems, isUploaderElem, List.filter_append,
            filter_isUploader_sliderPart]
      | true =>
        cases hp : ext.process_images f1 f2 with
        | error e =>
          rw [renderApp_err_eq ext f1 f2 c v st0 e h hp]
          simp [headerElems, isUploaderElem, List.filter_append]
        | ok out =>
          rw [renderApp_ok_eq ext f1 f2 c v st0 out h hp]
          simp [headerElems, processElems, footerElems, isUploaderElem, List.filter_append]

/-- C7: on every successful processing run the page renders, in this order:
the comparison figure, the SSIM and PSNR metrics, the three RGB histograms
(source, generated, target), the difference map with its mean-difference
metric, the per-channel breakdowns for generated and target, the LAB
decompositions for generated and target, the three download buttons, and the
comparison slider. -/
theorem c7_render_order (ext : ExternalModule) (f1 f2 : FileBytes) (clicked : Bool)
    (v : ℚ) (st0 : SessionStore) (out : ProcOut)
    (htrig : procTrigger clicked (initStore st0) = true)
    (hok : ext.process_images f1 f2 = Except.ok out) :
    (renderApp ext ⟨some f1, some f2, clicked, v⟩ st0).elems =
      headerElems
      ++ [Element.button "Process Images",
          Element.spinner "Processing images...",
          Element.pyplot (RFig.extFig out.fig),
          Element.subheader "Accuracy Metrics",
          Element.metric "SSIM" out.ssim,
          Element.info ssimInfoText,
          Element.metric "PSNR" out.psnr,
          Element.info psnrInfoText,
          Element.subheader "Color Histograms",
          Element.write histIntroText,
          Element.pyplot (RFig.axes3 (ext.plot_histogram (rescale01 out.srcArr) "Source")
            (ext.plot_histogram (rescale01 out.genArr) "Generated")
            (ext.plot_histogram (rescale01 out.tarArr) "Target")),
          Element.subheader "Difference Map",
          Element.pyplot (RFig.extFig (ext.plot_difference_map (rescale01 out.tarArr) (rescale01 out.genArr)).1),
          Element.write diffMapText,
          Element.metric "Mean Difference" (ext.plot_difference_map (rescale01 out.tarArr) (rescale01 out.genArr)).2,
          Element.info meanDiffInfoText,
          Element.subheader "Color Channels",
          Element.write channelsIntroText,
          Element.pyplot (RFig.extFig (ext.plot_color_channels (rescale01 out.genArr) "Generated Image Color Channels")),
          Element.pyplot (RFig.extFig (ext.plot_color_channels (rescale01 out.tarArr) "Target Image Color Channels")),
          Element.subheader "LAB Color Space",
          Element.write labIntroText,
          Element.pyplot (RFig.extFig (ext.plot_lab_channels (rescale01 out.genArr) "Generated Image in LAB Color Space")),
          Element.pyplot (RFig.extFig (ext.plot_lab_channels (rescale01 out.tarArr) "Target Image in LAB Color Space")),
          Element.subheader "Download Images",
          Element.downloadButton "Download Source Image" (DLData.file f1) "source_image.png" "image/png",
          Element.downloadButton "Download Generated Image" (DLData.bytes (genDownloadBytes out.genArr)) "generated_image.png" "image/png",
          Element.downloadButton "Download Target Image" (DLData.file f2) "target_image.png" "image/png",
          Element.subheader "Image Comparison Slider",
          Element.slider "Slide to compare original and generated images" 0 1 (1 / 2),
          Element.pyplot (RFig.sliderFig (blend out.srcArr out.genArr v)),
          Element.showingPct v]
      ++ footerElems := by
  rw [renderApp_ok_eq ext f1 f2 clicked v st0 out htrig hok]
  simp [processElems]

/-- C7 witness: a concrete successful run. -/
theorem c7_witness :
    (procTrigger false (initStore []) = true
      ∧ extEx.process_images f1Ex f2Ex = Except.ok outEx)
    ∧ (renderApp extEx ⟨some f1Ex, some f2Ex, false, 1 / 2⟩ []).elems =
        headerElems
        ++ [Element.button "Process Images",
            Element.spinner "Processing images...",
            Element.pyplot (RFig.extFig outEx.fig),
            Element.subheader "Accuracy Metrics",
            Element.metric "SSIM" outEx.ssim,
            Element.info ssimInfoText,
            Element.metric "PSNR" outEx.psnr,
            Element.info psnrInfoText,
            Element.subheader "Color Histograms",
            Element.write histIntroText,
            Element.pyplot (RFig.axes3 (extEx.plot_histogram (rescale01 outEx.srcArr) "Source")
              (extEx.plot_histogram (rescale01 outEx.genArr) "Generated")
              (extEx.plot_histogram (rescale01 outEx.tarArr) "Target")),
            Element.subheader "Difference Map",
            Element.pyplot (RFig.extFig (extEx.plot_difference_map (rescale01 outEx.tarArr) (rescale01 outEx.genArr)).1),
            Element.write diffMapText,
            Element.metric "Mean Difference" (extEx.plot_difference_map (rescale01 outEx.tarArr) (rescale01 outEx.genArr)).2,
            Element.info meanDiffInfoText,
            Element.subheader "Color Channels",
            Element.write channelsIntroText,
            Element.pyplot (RFig.extFig (extEx.plot_color_channels (rescale01 outEx.genArr) "Generated Image Color Channels")),
            Element.pyplot (RFig.extFig (extEx.plot_color_channels (rescale01 outEx.tarArr) "Target Image Color Channels")),
            Element.subheader "LAB Color Space",
            Element.write labIntroText,
            Element.pyplot (RFig.extFig (extEx.plot_lab_channels (rescale01 outEx.genArr) "Generated Image in LAB Color Space")),
            Element.pyplot (RFig.extFig (extEx.plot_lab_channels (rescale01 outEx.tarArr) "Target Image in LAB Color Space")),
            Element.subheader "Download Images",
            Element.downloadButton "Download Source Image" (DLData.file f1Ex) "source_image.png" "image/png",
            Element.downloadButton "Download Generated Image" (DLData.bytes (genDownloadBytes outEx.genArr)) "generated_image.png" "image/png",
            Element.downloadButton "Download Target Image" (DLData.file f2Ex) "target_image.png" "image/png",
            Element.subheader "Image Comparison Slider",
            Element.slider "Slide to compare original and generated images" 0 1 (1 / 2),
            Element.pyplot (RFig.sliderFig (blend outEx.srcArr outEx.genArr (1 / 2))),
            Element.showingPct (1 / 2)]
        ++ footerElems :=
  ⟨⟨by decide, rfl⟩,
   c7_render_order extEx f1Ex f2Ex false (1 / 2) [] outEx (by decide) rfl⟩

end SARApp
